import Mathlib

/-!
Verification of the relay-and-reconnection core of the skyfox64 repository.

The development shallowly embeds the two event-driven programs of the
repository:

* `server.js` — the relay process: one upstream Jetstream connection whose
  `message` handler fans payloads out to every connected downstream client in
  the `OPEN` state, `close`/`error` handlers that drive the fixed 5-second
  upstream reconnect policy, connection handlers that maintain the
  `connectedClients` set, and the `/health` endpoint.
* `src/BlueSkyVis.tsx` (the `useEffect` WebSocket block) — the client-side
  downstream connection manager: `connectWebSocket`, the `onopen` /
  `onmessage` / `onclose` / `onerror` handlers, the heartbeat and
  staleness-check intervals, `scheduleReconnect` with linear backoff capped
  at 10 s and at most `maxReconnectAttempts = 50` attempts, the unmount
  cleanup, and `createMessage`, which decodes a parsed payload into a scene
  object carrying an optional `bsky.app` permalink.

Host facilities are made explicit: the value of `Math.random()` draws,
`Date.now()` readings, transport `readyState` values and the outcome of
`JSON.parse` (which either yields a structured payload or throws) are
parameters of the embedded handlers, and timers are recorded in the state so
that scheduling behaviour can be stated.  Each handler is otherwise a direct
transcription of the corresponding JavaScript.
-/

namespace Skyfox

/-- Transport `readyState` values of a WebSocket
(`CONNECTING | OPEN | CLOSING | CLOSED`). -/
inductive WSState where
  | connecting
  | opened
  | closing
  | closed
deriving DecidableEq, Repr

/-! ## Relay process state (`server.js`) -/

/-- State of the relay process in `server.js`: the `connectedClients` set
(handles are identified by numeric ids), the payloads delivered to each
downstream handle so far (`inboxes c` in arrival order; the transcript of the
`client.send` calls made on handle `c`), the `readyState` of the
`jetstreamConnection` variable (`none` models the initial `null`), and the
log of upstream reconnect timers scheduled by `setTimeout` so far (each entry
is the delay in ms). -/
structure ServerState where
  connectedClients : Finset Nat
  inboxes : Nat → List String
  jetstream : Option WSState
  jsTimers : List Nat

/-- The upstream `message` handler of `connectToJetstream` (server.js lines
42–49): for each member of `connectedClients` whose `readyState` is `OPEN`
at dispatch time (the oracle `rs`), `client.send(data.toString())` is called;
other members are skipped.  Payloads are modelled as the strings actually
sent (`data.toString()` decodes the received buffer, so the byte content
forwarded is the byte content received). -/
def broadcast (data : String) (rs : Nat → WSState) (st : ServerState) : ServerState :=
  { st with
    inboxes := fun c =>
      if c ∈ st.connectedClients ∧ rs c = WSState.opened then
        st.inboxes c ++ [data]
      else
        st.inboxes c }

/-- Events dispatched to the relay process: the handlers installed by
`connectToJetstream` (`open`, `message`, `close`, `error`), the firing of a
scheduled upstream reconnect (which runs `connectToJetstream` again), and the
per-client `connection`, `close` and `error` handlers of `wss`.  A `message`
event carries the `readyState` oracle observed during its dispatch. -/
inductive ServerEvent where
  | jsOpen
  | jsMessage (data : String) (rs : Nat → WSState)
  | jsClose
  | jsError
  | jsReconnectFire
  | clientConnect (c : Nat)
  | clientClose (c : Nat)
  | clientError (c : Nat)

/-- One callback dispatch of the relay process (server.js lines 34–75):
`close` logs and schedules exactly one `setTimeout(connectToJetstream, 5000)`;
`error` only logs; the reconnect firing runs `connectToJetstream`, creating a
fresh connecting socket; client `close`/`error` delete the handle from the
set; `connection` adds it. -/
def serverStep : ServerEvent → ServerState → ServerState
  | ServerEvent.jsOpen, st => { st with jetstream := some WSState.opened }
  | ServerEvent.jsMessage data rs, st => broadcast data rs st
  | ServerEvent.jsClose, st =>
      { st with jetstream := some WSState.closed, jsTimers := st.jsTimers ++ [5000] }
  | ServerEvent.jsError, st => st
  | ServerEvent.jsReconnectFire, st => { st with jetstream := some WSState.connecting }
  | ServerEvent.clientConnect c, st =>
      { st with connectedClients := insert c st.connectedClients }
  | ServerEvent.clientClose c, st =>
      { st with connectedClients := st.connectedClients.erase c }
  | ServerEvent.clientError c, st =>
      { st with connectedClients := st.connectedClients.erase c }

/-- Serialized dispatch of a sequence of relay callbacks (the single-threaded
event loop of the Node process). -/
def runServer : List ServerEvent → ServerState → ServerState
  | [], st => st
  | e :: es, st => runServer es (serverStep e st)

/-- Discriminator for upstream `close` events. -/
def isJsClose : ServerEvent → Bool
  | ServerEvent.jsClose => true
  | _ => false

/-- Discriminator for the `connection` event of a given client handle. -/
def isClientConnect (c : Nat) : ServerEvent → Bool
  | ServerEvent.clientConnect d => d == c
  | _ => false

/-- Response of the `/health` endpoint. -/
structure HealthResponse where
  status : String
  clients : Nat
  jetstream : Bool
deriving DecidableEq, Repr

/-- The `/health` handler (server.js lines 81–87): a pure function of the
in-memory state — `jetstreamConnection?.readyState === WebSocket.OPEN` is
`false` when the variable is still `null`. -/
def health (st : ServerState) : HealthResponse :=
  { status := "ok"
  , clients := st.connectedClients.card
  , jetstream := decide (st.jetstream = some WSState.opened) }

/-- A readyState oracle under which handle 1 is `OPEN` and everything else is
closed. -/
def rs0 : Nat → WSState := fun c => if c = 1 then WSState.opened else WSState.closed

/-- A concrete relay state with two registered handles and empty
transcripts. -/
def st0 : ServerState :=
  { connectedClients := {1, 2}
  , inboxes := fun _ => []
  , jetstream := none
  , jsTimers := [] }

/-! ## Payloads and the decoder (`BlueSkyVis.tsx`) -/

/-- The `record` object of a parsed Jetstream payload, as far as the client
reads it: only the `text` field matters (`none` models an absent field). -/
structure PostRecord where
  text : Option String
deriving DecidableEq, Repr

/-- The `commit` object of a parsed payload: its `record` and its `rkey`. -/
structure PostCommit where
  record : Option PostRecord
  rkey : Option String
deriving DecidableEq, Repr

/-- A parsed Jetstream payload, restricted to the fields the client reads:
`did` and `commit`. -/
structure Payload where
  did : Option String
  commit : Option PostCommit
deriving DecidableEq, Repr

/-- JavaScript truthiness of an optional string: `undefined` and the empty
string are falsy, every other string is truthy. -/
def jsTruthy : Option String → Bool
  | some s => !(s == "")
  | none => false

/-- The optional chain `payload.commit?.record?.text`. -/
def payloadText (p : Payload) : Option String :=
  (p.commit.bind PostCommit.record).bind PostRecord.text

/-- The fields of the scene object pushed by `createMessage` that are visible
at the decoder boundary: the post text it renders, whether the message got
the special (center, `wall = -1`) placement, and the optional `bsky.app`
permalink.  Mesh geometry, texture and speed are presentation-only and not
modelled. -/
structure MessageObject where
  text : String
  special : Bool
  blueSkyUrl : Option String
deriving DecidableEq, Repr

/-- The permalink computation of `createMessage` (BlueSkyVis.tsx lines
366–375): a URL is built only when the payload is present, its
`commit?.record?.text` is truthy, the message has the special placement
(`wall === -1`), and both `did` and `commit?.rkey` are truthy. -/
def computeUrl (postData : Option Payload) (wall : Int) : Option String :=
  match postData with
  | none => none
  | some pd =>
      if jsTruthy (payloadText pd) = true ∧ wall = -1 then
        match pd.did, pd.commit.bind PostCommit.rkey with
        | some did, some rkey =>
            if did ≠ "" ∧ rkey ≠ "" then
              some ("https://bsky.app/profile/" ++ did ++ "/post/" ++ rkey)
            else none
        | some _, none => none
        | none, some _ => none
        | none, none => none
      else none

/-- `createMessage` (BlueSkyVis.tsx lines 306–385), with the host inputs made
explicit: `refsReady` is the guard `sceneRef && texturePoolRef &&
textWrapperRef` of line 307; `wallRaw` is the already-floored draw
`Math.floor(Math.random() * (4 + 1 * specialFrequency))` of line 309
(`wallRaw > 3` becomes the special placement `wall = -1`); `rand` is the
`Math.random()` draw of the discard check on line 316, compared against the
`discardFraction` setting.  A discarded call (or one with the renderer not
yet ready) pushes no object; otherwise a `MessageObject` is pushed whose
permalink is `computeUrl`. -/
def createMessage (refsReady : Bool) (discardFraction rand : Rat) (wallRaw : Nat)
    (text : String) (postData : Option Payload) : Option MessageObject :=
  if refsReady = false then none
  else
    let wall : Int := if 3 < wallRaw then -1 else (wallRaw : Int)
    if wall ≠ -1 ∧ 0 < discardFraction ∧ rand < discardFraction then none
    else
      some { text := text
           , special := decide (wall = -1)
           , blueSkyUrl := computeUrl postData wall }

/-- The decode step of `ws.onmessage` (BlueSkyVis.tsx lines 969–972) applied
to an already-parsed payload: `createMessage(data.commit.record.text, data)`
is called only when `data.commit?.record?.text` is truthy; otherwise the
payload yields nothing. -/
def decodeParsed (refsReady : Bool) (discardFraction rand : Rat) (wallRaw : Nat)
    (p : Payload) : Option MessageObject :=
  if jsTruthy (payloadText p) then
    createMessage refsReady discardFraction rand wallRaw ((payloadText p).getD "") (some p)
  else none

/-! ## Downstream connection manager state (`BlueSkyVis.tsx`) -/

/-- The connection-management variables of the `useEffect` WebSocket block
(BlueSkyVis.tsx lines 924–934) plus the observable transport state of the
current `ws` object.  `reconnectTimeout` is the pending reconnect timer
(`some delay` while one is scheduled and not yet fired); `heartbeatInterval`
and `connectionCheckInterval` record whether the corresponding interval
handle stored in the variable is live; `leakedIntervals` counts interval
handles that were overwritten by a later `setInterval` without ever being
cancelled — it is 0 exactly when no timer set has outlived its
supersession. -/
structure CState where
  reconnectAttempts : Nat
  shouldReconnect : Bool
  lastMessageTime : Nat
  reconnectTimeout : Option Nat
  heartbeatInterval : Bool
  connectionCheckInterval : Bool
  leakedIntervals : Nat
  wsReady : WSState
deriving DecidableEq, Repr

/-- `maxReconnectAttempts = 50` (line 932). -/
def maxReconnectAttempts : Nat := 50

/-- `baseReconnectDelay = 2000` (line 933). -/
def baseReconnectDelay : Nat := 2000

/-- `connectionTimeout = 10000` (line 934). -/
def connectionTimeout : Nat := 10000

/-- `scheduleReconnect` (lines 998–1011): a no-op when `shouldReconnect` is
false or `reconnectAttempts >= maxReconnectAttempts`; otherwise it schedules
one timer with delay `min(baseReconnectDelay + reconnectAttempts * 1000,
10000)`.  The increment of `reconnectAttempts` happens when the timer fires
(`reconnectFire`), as in the source. -/
def scheduleReconnect (s : CState) : CState :=
  if s.shouldReconnect = false ∨ maxReconnectAttempts ≤ s.reconnectAttempts then s
  else
    { s with
      reconnectTimeout := some (min (baseReconnectDelay + s.reconnectAttempts * 1000) 10000) }

/-- `connectWebSocket` (lines 936–996): constructing the WebSocket yields a
fresh `CONNECTING` transport; if the constructor throws (`ctorOk = false`),
the `catch` block calls `scheduleReconnect`. -/
def connectWebSocket (ctorOk : Bool) (s : CState) : CState :=
  if ctorOk then { s with wsReady := WSState.connecting }
  else scheduleReconnect s

/-- `ws.onopen` (lines 940–965): resets `reconnectAttempts`, stamps
`lastMessageTime` with the current clock, and starts the heartbeat and
staleness-check intervals.  `setInterval` overwrites the stored handle: a
still-live old handle would be leaked, which the model counts. -/
def wsOnOpen (now : Nat) (s : CState) : CState :=
  { s with
    reconnectAttempts := 0
  , lastMessageTime := now
  , leakedIntervals := s.leakedIntervals
      + (if s.heartbeatInterval then 1 else 0)
      + (if s.connectionCheckInterval then 1 else 0)
  , heartbeatInterval := true
  , connectionCheckInterval := true
  , wsReady := WSState.opened }

/-- `ws.onmessage` (lines 967–973): `lastMessageTime` is updated first,
unconditionally; then `JSON.parse(event.data)` runs with no surrounding
`try`/`catch` — its outcome is the parameter `raw` (`none` when parsing
throws), and a thrown parse error propagates out of the handler, reported as
the `some ()` second component.  A successfully parsed payload never throws
(the text check is an optional chain) and leaves the connection state
untouched apart from `lastMessageTime`. -/
def wsOnMessage (raw : Option Payload) (now : Nat) (s : CState) :
    CState × Option Unit :=
  ({ s with lastMessageTime := now }, if raw.isSome then none else some ())

/-- `ws.onclose` (lines 975–988): always clears both intervals first, then
calls `scheduleReconnect` exactly when `shouldReconnect` is true. -/
def wsOnClose (s : CState) : CState :=
  let s1 := { s with heartbeatInterval := false, connectionCheckInterval := false }
  if s.shouldReconnect then scheduleReconnect s1 else s1

/-- `ws.onerror` (lines 990–992): no action — recovery is left to the
subsequent `close` event. -/
def wsOnError (s : CState) : CState := s

/-- One firing of the heartbeat interval (lines 945–956): only a live
interval fires; the body pings an `OPEN` transport, and if `ws.send` throws
(`sendOk = false`) and `shouldReconnect` holds, it calls `ws?.close()`
(transport goes to `CLOSING`) and `scheduleReconnect`. -/
def heartbeatTick (sendOk : Bool) (s : CState) : CState :=
  if s.heartbeatInterval = false then s
  else if s.wsReady = WSState.opened then
    if sendOk then s
    else if s.shouldReconnect then scheduleReconnect { s with wsReady := WSState.closing }
    else s
  else s

/-- One firing of the staleness-check interval (lines 959–964): only a live
interval fires; if more than `connectionTimeout` ms have passed since
`lastMessageTime` and the transport still reports `OPEN`, it calls
`ws.close()`, moving the transport to `CLOSING` (the `close` event follows
from the transport later). -/
def connectionCheck (now : Nat) (s : CState) : CState :=
  if s.connectionCheckInterval = false then s
  else if connectionTimeout < now - s.lastMessageTime ∧ s.wsReady = WSState.opened then
    { s with wsReady := WSState.closing }
  else s

/-- Firing of the pending reconnect timer (lines 1005–1010): only a pending
timer can fire, and firing consumes it; the body increments
`reconnectAttempts` and runs `connectWebSocket` only when `shouldReconnect`
still holds. -/
def reconnectFire (ctorOk : Bool) (s : CState) : CState :=
  if s.reconnectTimeout = none then s
  else
    let s1 := { s with reconnectTimeout := none }
    if s1.shouldReconnect then
      connectWebSocket ctorOk { s1 with reconnectAttempts := s1.reconnectAttempts + 1 }
    else s1

/-- The `useEffect` cleanup (lines 1044–1064): sets `shouldReconnect` to
false, clears the reconnect timer and both intervals, and closes the
transport with status 1000. -/
def cleanup (s : CState) : CState :=
  { s with
    shouldReconnect := false
  , reconnectTimeout := none
  , heartbeatInterval := false
  , connectionCheckInterval := false
  , wsReady := WSState.closing }

/-- Events dispatched to the downstream connection manager: the four
transport handlers, the firings of the three timers, and the unmount
cleanup.  `evMessage` carries the `JSON.parse` outcome and the `Date.now()`
reading; `evReconnectFire` carries whether the WebSocket constructor
succeeds; `evHeartbeatTick` carries whether `ws.send` succeeds. -/
inductive CEvent where
  | evOpen (now : Nat)
  | evMessage (raw : Option Payload) (now : Nat)
  | evClose
  | evError
  | evReconnectFire (ctorOk : Bool)
  | evHeartbeatTick (sendOk : Bool)
  | evCheckTick (now : Nat)
  | evCleanup
deriving DecidableEq

/-- One callback dispatch of the downstream connection manager.  An uncaught
exception from `onmessage` leaves the already-performed state update in
place; the event loop then dispatches the next callback regardless. -/
def clientStep : CEvent → CState → CState
  | CEvent.evOpen now, s => wsOnOpen now s
  | CEvent.evMessage raw now, s => (wsOnMessage raw now s).1
  | CEvent.evClose, s => wsOnClose s
  | CEvent.evError, s => wsOnError s
  | CEvent.evReconnectFire ctorOk, s => reconnectFire ctorOk s
  | CEvent.evHeartbeatTick sendOk, s => heartbeatTick sendOk s
  | CEvent.evCheckTick now, s => connectionCheck now s
  | CEvent.evCleanup, s => cleanup s

/-- Serialized dispatch of a sequence of client callbacks (the browser event
loop). -/
def runClient : List CEvent → CState → CState
  | [], s => s
  | e :: es, s => runClient es (clientStep e s)

/-- Discriminator for `open` events. -/
def isOpenEvent : CEvent → Bool
  | CEvent.evOpen _ => true
  | _ => false

/-- Discriminator for `close` events. -/
def isCloseEvent : CEvent → Bool
  | CEvent.evClose => true
  | _ => false

/-- Checks that opens and closes alternate along an event list: the flag
records whether a connection instance is currently open (its `close` not yet
delivered), and a new `open` may only occur when it is down.  This is the
delivery-order guarantee of sequential connection instances: every `open` of
a fresh WebSocket is preceded by the `close` of its predecessor (a fresh
socket is only constructed by `reconnectFire`, reached from `onclose`, or
from a constructor failure that opened nothing). -/
def lifecycleOk : Bool → List CEvent → Bool
  | _, [] => true
  | b, CEvent.evOpen _ :: es => !b && lifecycleOk true es
  | _, CEvent.evClose :: es => lifecycleOk false es
  | _, CEvent.evCleanup :: es => lifecycleOk false es
  | b, _ :: es => lifecycleOk b es

/-- A freshly-initialised connection-manager state (lines 925–934): no timer
pending, no interval live, counters at their initial values, transport
connecting. -/
def cInit : CState :=
  { reconnectAttempts := 0
  , shouldReconnect := true
  , lastMessageTime := 0
  , reconnectTimeout := none
  , heartbeatInterval := false
  , connectionCheckInterval := false
  , leakedIntervals := 0
  , wsReady := WSState.connecting }

/-- A connection-manager state whose reconnect budget is exhausted. -/
def cExhausted : CState :=
  { cInit with reconnectAttempts := 50, wsReady := WSState.closed }

/-- A concrete parsed payload with truthy text, `did` and `rkey`. -/
def pdEx : Payload :=
  { did := some "abc"
  , commit := some { record := some { text := some "hi" }, rkey := some "xyz" } }

end Skyfox

namespace Skyfox

/-! ## Theorems about the relay process -/

/-- A relay step that is not the `connection` event of handle `c` neither
re-adds `c` to the client set nor sends anything to `c`, provided `c` is not
currently a member. -/
theorem serverStep_unregistered (e : ServerEvent) (st : ServerState) (c : Nat)
    (hm : c ∉ st.connectedClients) (hne : isClientConnect c e = false) :
    c ∉ (serverStep e st).connectedClients ∧
    (serverStep e st).inboxes c = st.inboxes c := by
  cases e with
  | jsOpen => exact ⟨hm, rfl⟩
  | jsMessage data rs =>
      refine ⟨hm, ?_⟩
      simp [serverStep, broadcast, hm]
  | jsClose => exact ⟨hm, rfl⟩
  | jsError => exact ⟨hm, rfl⟩
  | jsReconnectFire => exact ⟨hm, rfl⟩
  | clientConnect d =>
      simp only [isClientConnect, beq_eq_false_iff_ne, ne_eq] at hne
      refine ⟨?_, rfl⟩
      simp [serverStep, Finset.mem_insert, hm]
      intro h
      exact hne h.symm
  | clientClose d =>
      refine ⟨?_, rfl⟩
      simp [serverStep]
      intro _
      exact hm
  | clientError d =>
      refine ⟨?_, rfl⟩
      simp [serverStep]
      intro _
      exact hm

/-- Once a handle is out of the client set, any event sequence that contains
no `connection` event for it keeps it out and never delivers a payload to
it. -/
theorem runServer_unregistered (evs : List ServerEvent) :
    ∀ (st : ServerState) (c : Nat), c ∉ st.connectedClients →
    (∀ e ∈ evs, isClientConnect c e = false) →
    c ∉ (runServer evs st).connectedClients ∧
    (runServer evs st).inboxes c = st.inboxes c := by
  induction evs with
  | nil => intro st c hm _; exact ⟨hm, rfl⟩
  | cons e es ih =>
      intro st c hm hall
      have he : isClientConnect c e = false := hall e (List.mem_cons_self e es)
      have hstep := serverStep_unregistered e st c hm he
      have hrest := ih (serverStep e st) c hstep.1
        (fun f hf => hall f (List.mem_cons_of_mem e hf))
      exact ⟨hrest.1, hrest.2.trans hstep.2⟩

/-- Claim C1: a forwarded upstream payload is sent to exactly those handles
currently in the client set whose transport-reported state is `OPEN`
(identical content appended to their delivery transcript), while all other
handles — non-`Open` members included — are left untouched and not removed;
an always-`Open` member receives a whole payload sequence in upstream arrival
order; and a handle that has been unregistered (by its `close` or `error`
event) is out of the set and receives nothing from any subsequent broadcast,
as long as no new `connection` event re-registers it. -/
theorem fanout_broadcast_spec :
    (∀ (st : ServerState) (data : String) (rs : Nat → WSState) (c : Nat),
      ((c ∈ st.connectedClients ∧ rs c = WSState.opened) →
        (broadcast data rs st).inboxes c = st.inboxes c ++ [data]) ∧
      (¬(c ∈ st.connectedClients ∧ rs c = WSState.opened) →
        (broadcast data rs st).inboxes c = st.inboxes c) ∧
      (broadcast data rs st).connectedClients = st.connectedClients) ∧
    (∀ (msgs : List (String × (Nat → WSState))) (st : ServerState) (c : Nat),
      c ∈ st.connectedClients →
      (∀ p ∈ msgs, p.2 c = WSState.opened) →
      (runServer (msgs.map (fun p => ServerEvent.jsMessage p.1 p.2)) st).inboxes c
        = st.inboxes c ++ msgs.map Prod.fst) ∧
    (∀ (evs : List ServerEvent) (st : ServerState) (c : Nat),
      c ∉ st.connectedClients →
      (∀ e ∈ evs, isClientConnect c e = false) →
      c ∉ (runServer evs st).connectedClients ∧
      (runServer evs st).inboxes c = st.inboxes c) ∧
    (∀ (st : ServerState) (c : Nat),
      c ∉ (serverStep (ServerEvent.clientClose c) st).connectedClients ∧
      c ∉ (serverStep (ServerEvent.clientError c) st).connectedClients) := by
  refine ⟨?_, ?_, ?_, ?_⟩
  · intro st data rs c
    refine ⟨fun h => ?_, fun h => ?_, rfl⟩
    · simp [broadcast, h]
    · simp [broadcast, h]
  · intro msgs
    induction msgs with
    | nil => intro st c _ _; simp [runServer]
    | cons p ms ih =>
        intro st c hc hall
        have hp : p.2 c = WSState.opened := hall p (List.mem_cons_self p ms)
        have hrest := ih (broadcast p.1 p.2 st) c hc
          (fun q hq => hall q (List.mem_cons_of_mem p hq))
        simp only [List.map_cons, runServer, serverStep] at hrest ⊢
        rw [hrest]
        simp [broadcast, hc, hp]
  · intro evs st c hm hall
    exact runServer_unregistered evs st c hm hall
  · intro st c
    constructor
    · simp [serverStep]
    · simp [serverStep]

/-- Witness for claim C1: handle 1 of the concrete state `st0` is registered
and `OPEN` throughout, and after two forwarded payloads its transcript is
exactly those payloads in arrival order. -/
theorem fanout_broadcast_spec_witness :
    (1 ∈ st0.connectedClients ∧
      ∀ p ∈ [("a", rs0), ("b", rs0)], p.2 1 = WSState.opened) ∧
    (runServer [ServerEvent.jsMessage "a" rs0, ServerEvent.jsMessage "b" rs0] st0).inboxes 1
      = ["a", "b"] := by
  refine ⟨⟨by decide, by decide⟩, ?_⟩
  have h := fanout_broadcast_spec.2.1 [("a", rs0), ("b", rs0)] st0 1 (by decide) (by decide)
  simpa [st0] using h

/-! ## Theorems about the downstream connection manager -/

/-- `scheduleReconnect` only touches the pending reconnect timer: every other
field of the connection state is preserved. -/
theorem scheduleReconnect_preserves (s : CState) :
    (scheduleReconnect s).reconnectAttempts = s.reconnectAttempts ∧
    (scheduleReconnect s).shouldReconnect = s.shouldReconnect ∧
    (scheduleReconnect s).heartbeatInterval = s.heartbeatInterval ∧
    (scheduleReconnect s).connectionCheckInterval = s.connectionCheckInterval ∧
    (scheduleReconnect s).leakedIntervals = s.leakedIntervals ∧
    (scheduleReconnect s).wsReady = s.wsReady := by
  unfold scheduleReconnect
  split <;> simp

/-- `connectWebSocket` neither starts nor cancels an interval and leaks
none. -/
theorem connectWebSocket_intervals (ctorOk : Bool) (s : CState) :
    (connectWebSocket ctorOk s).heartbeatInterval = s.heartbeatInterval ∧
    (connectWebSocket ctorOk s).connectionCheckInterval = s.connectionCheckInterval ∧
    (connectWebSocket ctorOk s).leakedIntervals = s.leakedIntervals := by
  unfold connectWebSocket
  split
  · exact ⟨rfl, rfl, rfl⟩
  · exact ⟨(scheduleReconnect_preserves s).2.2.1,
      (scheduleReconnect_preserves s).2.2.2.1,
      (scheduleReconnect_preserves s).2.2.2.2.1⟩

/-- While `shouldReconnect` is false and no reconnect timer is pending, no
dispatch re-enables reconnection or schedules a timer: nothing ever sets
`shouldReconnect` back to true, and every path into `scheduleReconnect` is
guarded by it. -/
theorem clientStep_disabled (e : CEvent) (s : CState)
    (h1 : s.shouldReconnect = false) (h2 : s.reconnectTimeout = none) :
    (clientStep e s).shouldReconnect = false ∧
    (clientStep e s).reconnectTimeout = none := by
  cases e <;>
    simp only [clientStep, wsOnOpen, wsOnMessage, wsOnClose, wsOnError, heartbeatTick,
      connectionCheck, reconnectFire, cleanup, scheduleReconnect, connectWebSocket, h1] <;>
    (repeat' split) <;> simp_all

/-- Claim C7: the unmount cleanup (`dispose`) turns `shouldReconnect` off and
cancels any pending reconnect timer, and from any such state no subsequent
event — including a queued `close` for the old connection — ever schedules a
reconnect or re-enables reconnection. -/
theorem dispose_no_reconnect_spec :
    (∀ s : CState,
      (cleanup s).shouldReconnect = false ∧ (cleanup s).reconnectTimeout = none) ∧
    (∀ (evs : List CEvent) (s : CState),
      s.shouldReconnect = false → s.reconnectTimeout = none →
      (runClient evs s).shouldReconnect = false ∧
      (runClient evs s).reconnectTimeout = none) := by
  constructor
  · intro s
    exact ⟨rfl, rfl⟩
  · intro evs
    induction evs with
    | nil => intro s h1 h2; exact ⟨h1, h2⟩
    | cons e es ih =>
        intro s h1 h2
        have hstep := clientStep_disabled e s h1 h2
        exact ih (clientStep e s) hstep.1 hstep.2

/-- Witness for claim C7: tearing down a fresh connection and then receiving
the queued `close` event leaves no reconnect scheduled. -/
theorem dispose_no_reconnect_spec_witness :
    ((cleanup cInit).shouldReconnect = false ∧
      (cleanup cInit).reconnectTimeout = none) ∧
    (runClient [CEvent.evClose] (cleanup cInit)).reconnectTimeout = none := by
  refine ⟨dispose_no_reconnect_spec.1 cInit, ?_⟩
  exact (dispose_no_reconnect_spec.2 [CEvent.evClose] (cleanup cInit) rfl rfl).2

/-- Once the reconnect budget is exhausted (`reconnectAttempts ≥ 50`) and no
timer is pending, any dispatch that is not a successful `open` keeps the
budget exhausted and schedules nothing. -/
theorem clientStep_exhausted (e : CEvent) (s : CState)
    (hno : isOpenEvent e = false)
    (h1 : maxReconnectAttempts ≤ s.reconnectAttempts)
    (h2 : s.reconnectTimeout = none) :
    maxReconnectAttempts ≤ (clientStep e s).reconnectAttempts ∧
    (clientStep e s).reconnectTimeout = none := by
  cases e <;>
    simp only [isOpenEvent] at hno <;>
    simp only [clientStep, wsOnOpen, wsOnMessage, wsOnClose, wsOnError, heartbeatTick,
      connectionCheck, reconnectFire, cleanup, scheduleReconnect, connectWebSocket, h2] <;>
    (repeat' split) <;> simp_all

/-- Claim C3: a downstream `close` with `shouldReconnect` true and fewer than
50 attempts schedules exactly one reconnect with delay
`min(2000 + reconnectAttempts * 1000, 10000)`; the firing of a pending timer
under `shouldReconnect` increments `reconnectAttempts` by one; every
successful `open` resets `reconnectAttempts` to 0; `scheduleReconnect` is a
no-op at 50 or more attempts; and once the budget is exhausted with no timer
pending, no event sequence free of `open` events ever schedules a 51st
attempt. -/
theorem downstream_backoff_spec :
    (∀ s : CState, s.shouldReconnect = true →
      s.reconnectAttempts < maxReconnectAttempts →
      (wsOnClose s).reconnectTimeout
        = some (min (baseReconnectDelay + s.reconnectAttempts * 1000) 10000)) ∧
    (∀ (ctorOk : Bool) (s : CState), s.shouldReconnect = true →
      s.reconnectTimeout ≠ none →
      (reconnectFire ctorOk s).reconnectAttempts = s.reconnectAttempts + 1) ∧
    (∀ (now : Nat) (s : CState), (wsOnOpen now s).reconnectAttempts = 0) ∧
    (∀ s : CState, maxReconnectAttempts ≤ s.reconnectAttempts →
      scheduleReconnect s = s) ∧
    (∀ (evs : List CEvent) (s : CState),
      maxReconnectAttempts ≤ s.reconnectAttempts →
      s.reconnectTimeout = none →
      (∀ e ∈ evs, isOpenEvent e = false) →
      maxReconnectAttempts ≤ (runClient evs s).reconnectAttempts ∧
      (runClient evs s).reconnectTimeout = none) := by
  refine ⟨?_, ?_, ?_, ?_, ?_⟩
  · intro s h1 h2
    simp only [wsOnClose, h1, if_true, scheduleReconnect]
    split
    · simp_all
      omega
    · rfl
  · intro ctorOk s h1 h2
    simp only [reconnectFire, h2, if_neg, h1, if_true]
    split
    · simp_all
    · simp only [connectWebSocket]
      split
      · rfl
      · exact (scheduleReconnect_preserves _).1
  · intro now s
    rfl
  · intro s h
    simp [scheduleReconnect, h]
  · intro evs
    induction evs with
    | nil => intro s h1 h2 _; exact ⟨h1, h2⟩
    | cons e es ih =>
        intro s h1 h2 hall
        have hstep := clientStep_exhausted e s (hall e (List.mem_cons_self e es)) h1 h2
        exact ih (clientStep e s) hstep.1 hstep.2
          (fun f hf => hall f (List.mem_cons_of_mem e hf))

/-- Witness for claim C3: the first close of a fresh connection schedules a
2000 ms reconnect, and from the exhausted state two further closes schedule
nothing. -/
theorem downstream_backoff_spec_witness :
    (cInit.shouldReconnect = true ∧
      cInit.reconnectAttempts < maxReconnectAttempts ∧
      (wsOnClose cInit).reconnectTimeout = some 2000) ∧
    (maxReconnectAttempts ≤ cExhausted.reconnectAttempts ∧
      cExhausted.reconnectTimeout = none ∧
      (runClient [CEvent.evClose, CEvent.evClose] cExhausted).reconnectTimeout = none) := by
  refine ⟨⟨rfl, by decide, ?_⟩, ⟨by decide, rfl, ?_⟩⟩
  · have h := downstream_backoff_spec.1 cInit rfl (by decide)
    simpa [cInit, baseReconnectDelay] using h
  · exact (downstream_backoff_spec.2.2.2.2 [CEvent.evClose, CEvent.evClose] cExhausted
      (by decide) rfl (by decide)).2

/-- A dispatch that is neither an `open` nor a `close` can start no interval
and schedule no reconnect when none are live or pending. -/
theorem clientStep_hang (e : CEvent) (s : CState)
    (hno : isOpenEvent e = false) (hnc : isCloseEvent e = false)
    (h1 : s.heartbeatInterval = false) (h2 : s.connectionCheckInterval = false)
    (h3 : s.reconnectTimeout = none) :
    (clientStep e s).heartbeatInterval = false ∧
    (clientStep e s).connectionCheckInterval = false ∧
    (clientStep e s).reconnectTimeout = none := by
  cases e <;>
    simp only [isOpenEvent, isCloseEvent] at hno hnc <;>
    simp only [clientStep, wsOnOpen, wsOnMessage, wsOnClose, wsOnError, heartbeatTick,
      connectionCheck, reconnectFire, cleanup, scheduleReconnect, connectWebSocket,
      h1, h2, h3] <;>
    (repeat' split) <;> simp_all

/-- Claim C10: the heartbeat and staleness intervals are started only by the
`open` handler (in particular, `connectWebSocket` itself starts none), a
non-live interval never fires, and for a connection attempt that never fires
`open` and never fires `close` — a hang in `CONNECTING` — the fresh state
(no interval live, no timer pending) is preserved by every dispatched event:
no timer runs, no staleness detection applies, and no reconnect is ever
scheduled for that attempt. -/
theorem connecting_hang_spec :
    (∀ (now : Nat) (s : CState), s.connectionCheckInterval = false →
      connectionCheck now s = s) ∧
    (∀ (sendOk : Bool) (s : CState), s.heartbeatInterval = false →
      heartbeatTick sendOk s = s) ∧
    (∀ (ctorOk : Bool) (s : CState),
      (connectWebSocket ctorOk s).heartbeatInterval = s.heartbeatInterval ∧
      (connectWebSocket ctorOk s).connectionCheckInterval = s.connectionCheckInterval) ∧
    (∀ (evs : List CEvent) (s : CState),
      (∀ e ∈ evs, isOpenEvent e = false ∧ isCloseEvent e = false) →
      s.heartbeatInterval = false → s.connectionCheckInterval = false →
      s.reconnectTimeout = none →
      (runClient evs s).heartbeatInterval = false ∧
      (runClient evs s).connectionCheckInterval = false ∧
      (runClient evs s).reconnectTimeout = none) := by
  refine ⟨?_, ?_, ?_, ?_⟩
  · intro now s h
    simp [connectionCheck, h]
  · intro sendOk s h
    simp [heartbeatTick, h]
  · intro ctorOk s
    exact ⟨(connectWebSocket_intervals ctorOk s).1, (connectWebSocket_intervals ctorOk s).2.1⟩
  · intro evs
    induction evs with
    | nil => intro s _ h1 h2 h3; exact ⟨h1, h2, h3⟩
    | cons e es ih =>
        intro s hall h1 h2 h3
        have he := hall e (List.mem_cons_self e es)
        have hstep := clientStep_hang e s he.1 he.2 h1 h2 h3
        exact ih (clientStep e s) (fun f hf => hall f (List.mem_cons_of_mem e hf))
          hstep.1 hstep.2.1 hstep.2.2

/-- Witness for claim C10: errors, (non-live) timer firings and messages
dispatched to a fresh connecting attempt start no interval and schedule no
reconnect. -/
theorem connecting_hang_spec_witness :
    ((∀ e ∈ [CEvent.evError, CEvent.evHeartbeatTick true, CEvent.evCheckTick 99999,
        CEvent.evMessage none 3],
      isOpenEvent e = false ∧ isCloseEvent e = false) ∧
      cInit.heartbeatInterval = false ∧ cInit.connectionCheckInterval = false ∧
      cInit.reconnectTimeout = none) ∧
    ((runClient [CEvent.evError, CEvent.evHeartbeatTick true, CEvent.evCheckTick 99999,
        CEvent.evMessage none 3] cInit).heartbeatInterval = false ∧
      (runClient [CEvent.evError, CEvent.evHeartbeatTick true, CEvent.evCheckTick 99999,
        CEvent.evMessage none 3] cInit).connectionCheckInterval = false ∧
      (runClient [CEvent.evError, CEvent.evHeartbeatTick true, CEvent.evCheckTick 99999,
        CEvent.evMessage none 3] cInit).reconnectTimeout = none) := by
  refine ⟨⟨by decide, rfl, rfl, rfl⟩, ?_⟩
  exact connecting_hang_spec.2.2.2
    [CEvent.evError, CEvent.evHeartbeatTick true, CEvent.evCheckTick 99999,
      CEvent.evMessage none 3] cInit (by decide) rfl rfl rfl

/-- A heartbeat firing touches no interval flag and leaks no interval. -/
theorem heartbeatTick_intervals (sendOk : Bool) (s : CState) :
    (heartbeatTick sendOk s).heartbeatInterval = s.heartbeatInterval ∧
    (heartbeatTick sendOk s).connectionCheckInterval = s.connectionCheckInterval ∧
    (heartbeatTick sendOk s).leakedIntervals = s.leakedIntervals := by
  unfold heartbeatTick
  (repeat' split) <;>
    first
      | exact ⟨rfl, rfl, rfl⟩
      | exact ⟨(scheduleReconnect_preserves _).2.2.1,
          (scheduleReconnect_preserves _).2.2.2.1,
          (scheduleReconnect_preserves _).2.2.2.2.1⟩

/-- A staleness-check firing touches no interval flag and leaks no
interval. -/
theorem connectionCheck_intervals (now : Nat) (s : CState) :
    (connectionCheck now s).heartbeatInterval = s.heartbeatInterval ∧
    (connectionCheck now s).connectionCheckInterval = s.connectionCheckInterval ∧
    (connectionCheck now s).leakedIntervals = s.leakedIntervals := by
  unfold connectionCheck
  (repeat' split) <;> exact ⟨rfl, rfl, rfl⟩

/-- A reconnect-timer firing touches no interval flag and leaks no
interval. -/
theorem reconnectFire_intervals (ctorOk : Bool) (s : CState) :
    (reconnectFire ctorOk s).heartbeatInterval = s.heartbeatInterval ∧
    (reconnectFire ctorOk s).connectionCheckInterval = s.connectionCheckInterval ∧
    (reconnectFire ctorOk s).leakedIntervals = s.leakedIntervals := by
  unfold reconnectFire
  split
  · exact ⟨rfl, rfl, rfl⟩
  · dsimp only
    split
    · exact ⟨(connectWebSocket_intervals _ _).1,
        (connectWebSocket_intervals _ _).2.1,
        (connectWebSocket_intervals _ _).2.2⟩
    · exact ⟨rfl, rfl, rfl⟩

/-- The `close` handler always ends with both intervals cancelled and leaks
no interval. -/
theorem wsOnClose_intervals (s : CState) :
    (wsOnClose s).heartbeatInterval = false ∧
    (wsOnClose s).connectionCheckInterval = false ∧
    (wsOnClose s).leakedIntervals = s.leakedIntervals := by
  unfold wsOnClose
  split
  · exact ⟨(scheduleReconnect_preserves _).2.2.1,
      (scheduleReconnect_preserves _).2.2.2.1,
      (scheduleReconnect_preserves _).2.2.2.2.1⟩
  · exact ⟨rfl, rfl, rfl⟩

/-- Along any event sequence whose opens and closes alternate (every fresh
`open` preceded by the previous instance's `close` or by the cleanup), a
state with no uncovered live interval never leaks an interval handle. -/
theorem runClient_no_leak (evs : List CEvent) :
    ∀ (b : Bool) (s : CState),
    lifecycleOk b evs = true →
    (s.heartbeatInterval = true → b = true) →
    (s.connectionCheckInterval = true → b = true) →
    s.leakedIntervals = 0 →
    (runClient evs s).leakedIntervals = 0 := by
  induction evs with
  | nil =>
      intro b s _ _ _ hleak
      simpa [runClient] using hleak
  | cons e es ih =>
      intro b s hok hhb hcc hleak
      cases e with
      | evOpen now =>
          simp only [lifecycleOk, Bool.and_eq_true, Bool.not_eq_true'] at hok
          have hb : s.heartbeatInterval = false := by
            cases hhb' : s.heartbeatInterval
            · rfl
            · rw [hhb hhb'] at hok
              simp at hok
          have hc : s.connectionCheckInterval = false := by
            cases hcc' : s.connectionCheckInterval
            · rfl
            · rw [hcc hcc'] at hok
              simp at hok
          refine ih true (clientStep (CEvent.evOpen now) s) hok.2
            (fun _ => rfl) (fun _ => rfl) ?_
          simp [runClient, clientStep, wsOnOpen, hb, hc, hleak]
      | evClose =>
          simp only [lifecycleOk] at hok
          have hcl := wsOnClose_intervals s
          refine ih false (clientStep CEvent.evClose s) hok ?_ ?_ ?_
          · intro h
            simp only [clientStep] at h
            rw [hcl.1] at h
            exact h
          · intro h
            simp only [clientStep] at h
            rw [hcl.2.1] at h
            exact h
          · simp only [clientStep]
            rw [hcl.2.2]
            exact hleak
      | evCleanup =>
          simp only [lifecycleOk] at hok
          refine ih false (clientStep CEvent.evCleanup s) hok ?_ ?_ ?_
          · intro h
            simp [clientStep, cleanup] at h
          · intro h
            simp [clientStep, cleanup] at h
          · simpa [clientStep, cleanup] using hleak
      | evMessage raw now =>
          simp only [lifecycleOk] at hok
          exact ih b _ hok (fun h => hhb h) (fun h => hcc h) hleak
      | evError =>
          simp only [lifecycleOk] at hok
          exact ih b _ hok (fun h => hhb h) (fun h => hcc h) hleak
      | evReconnectFire ctorOk =>
          simp only [lifecycleOk] at hok
          have hre := reconnectFire_intervals ctorOk s
          refine ih b (clientStep (CEvent.evReconnectFire ctorOk) s) hok ?_ ?_ ?_
          · intro h
            simp only [clientStep] at h
            rw [hre.1] at h
            exact hhb h
          · intro h
            simp only [clientStep] at h
            rw [hre.2.1] at h
            exact hcc h
          · simp only [clientStep]
            rw [hre.2.2]
            exact hleak
      | evHeartbeatTick sendOk =>
          simp only [lifecycleOk] at hok
          have hht := heartbeatTick_intervals sendOk s
          refine ih b (clientStep (CEvent.evHeartbeatTick sendOk) s) hok ?_ ?_ ?_
          · intro h
            simp only [clientStep] at h
            rw [hht.1] at h
            exact hhb h
          · intro h
            simp only [clientStep] at h
            rw [hht.2.1] at h
            exact hcc h
          · simp only [clientStep]
            rw [hht.2.2]
            exact hleak
      | evCheckTick now =>
          simp only [lifecycleOk] at hok
          have hck := connectionCheck_intervals now s
          refine ih b (clientStep (CEvent.evCheckTick now) s) hok ?_ ?_ ?_
          · intro h
            simp only [clientStep] at h
            rw [hck.1] at h
            exact hhb h
          · intro h
            simp only [clientStep] at h
            rw [hck.2.1] at h
            exact hcc h
          · simp only [clientStep]
            rw [hck.2.2]
            exact hleak

/-- Claim C8: the `close` handler always cancels both the heartbeat and
staleness intervals (before it may schedule a reconnect, and hence before any
new connection attempt begins); only the `open` handler ever starts an
interval; and along any event sequence whose opens and closes alternate —
which holds of the source's sequential connection instances, since a fresh
socket is constructed only after the previous instance's `close` handler ran
(or after a constructor failure that opened nothing) — starting from a state
with no live and no leaked interval, no interval handle is ever leaked: at no
point do two timer sets for distinct connection instances run
concurrently. -/
theorem timer_lifecycle_spec :
    (∀ s : CState,
      (wsOnClose s).heartbeatInterval = false ∧
      (wsOnClose s).connectionCheckInterval = false) ∧
    (∀ (e : CEvent) (s : CState), isOpenEvent e = false →
      ((clientStep e s).heartbeatInterval = true → s.heartbeatInterval = true) ∧
      ((clientStep e s).connectionCheckInterval = true → s.connectionCheckInterval = true)) ∧
    (∀ (b : Bool) (evs : List CEvent) (s : CState),
      lifecycleOk b evs = true →
      (s.heartbeatInterval = true → b = true) →
      (s.connectionCheckInterval = true → b = true) →
      s.leakedIntervals = 0 →
      (runClient evs s).leakedIntervals = 0) := by
  refine ⟨?_, ?_, ?_⟩
  · intro s
    exact ⟨(wsOnClose_intervals s).1, (wsOnClose_intervals s).2.1⟩
  · intro e s hno
    cases e with
    | evOpen now => simp [isOpenEvent] at hno
    | evMessage raw now => exact ⟨fun h => h, fun h => h⟩
    | evClose =>
        constructor
        · intro h
          simp only [clientStep] at h
          rw [(wsOnClose_intervals s).1] at h
          simp at h
        · intro h
          simp only [clientStep] at h
          rw [(wsOnClose_intervals s).2.1] at h
          simp at h
    | evError => exact ⟨fun h => h, fun h => h⟩
    | evReconnectFire ctorOk =>
        constructor
        · intro h
          simp only [clientStep] at h
          rw [(reconnectFire_intervals ctorOk s).1] at h
          exact h
        · intro h
          simp only [clientStep] at h
          rw [(reconnectFire_intervals ctorOk s).2.1] at h
          exact h
    | evHeartbeatTick sendOk =>
        constructor
        · intro h
          simp only [clientStep] at h
          rw [(heartbeatTick_intervals sendOk s).1] at h
          exact h
        · intro h
          simp only [clientStep] at h
          rw [(heartbeatTick_intervals sendOk s).2.1] at h
          exact h
    | evCheckTick now =>
        constructor
        · intro h
          simp only [clientStep] at h
          rw [(connectionCheck_intervals now s).1] at h
          exact h
        · intro h
          simp only [clientStep] at h
          rw [(connectionCheck_intervals now s).2.1] at h
          exact h
    | evCleanup =>
        constructor
        · intro h
          simp [clientStep, cleanup] at h
        · intro h
          simp [clientStep, cleanup] at h
  · intro b evs
    exact runClient_no_leak evs b

/-- Witness for claim C8: a full open–close–reconnect–open–cleanup lifecycle
starting from the fresh state leaks no interval handle. -/
theorem timer_lifecycle_spec_witness :
    (lifecycleOk false [CEvent.evOpen 0, CEvent.evClose, CEvent.evReconnectFire true,
        CEvent.evOpen 7, CEvent.evCleanup] = true ∧
      cInit.leakedIntervals = 0) ∧
    (runClient [CEvent.evOpen 0, CEvent.evClose, CEvent.evReconnectFire true,
        CEvent.evOpen 7, CEvent.evCleanup] cInit).leakedIntervals = 0 := by
  refine ⟨⟨by decide, rfl⟩, ?_⟩
  exact timer_lifecycle_spec.2.2 false
    [CEvent.evOpen 0, CEvent.evClose, CEvent.evReconnectFire true,
      CEvent.evOpen 7, CEvent.evCleanup] cInit (by decide) (by decide) (by decide) rfl

/-- Claim C6: for a connection whose staleness interval is live (as it is
while the transport is `Open`), if the last message was received at
`lastMsg` and no further message arrives, then some staleness-check firing —
the interval fires at `openT + 5000 * (k + 1)` for successive `k` — happens
strictly after the 10000 ms threshold is exceeded and at most 5000 ms after
it, and at that firing the handler force-closes the still-`OPEN`
transport. -/
theorem staleness_force_close_spec (openT lastMsg : Nat) (hle : openT ≤ lastMsg) :
    ∃ k : Nat,
      lastMsg + connectionTimeout < openT + 5000 * (k + 1) ∧
      openT + 5000 * (k + 1) ≤ lastMsg + connectionTimeout + 5000 ∧
      ∀ s : CState, s.connectionCheckInterval = true → s.wsReady = WSState.opened →
        s.lastMessageTime = lastMsg →
        (connectionCheck (openT + 5000 * (k + 1)) s).wsReady = WSState.closing := by
  refine ⟨(lastMsg + connectionTimeout - openT) / 5000, ?_, ?_, ?_⟩
  · simp only [connectionTimeout]
    omega
  · simp only [connectionTimeout]
    omega
  · intro s h1 h2 h3
    have hgt : connectionTimeout <
        openT + 5000 * ((lastMsg + connectionTimeout - openT) / 5000 + 1) - s.lastMessageTime := by
      rw [h3]
      simp only [connectionTimeout]
      omega
    simp [connectionCheck, h1, h2, hgt]

/-- Witness for claim C6: with the connection opened and the last message
received at time 0, the third staleness firing (at 15000 ms, within 5000 ms
of the threshold at 10000 ms) force-closes an `OPEN` transport. -/
theorem staleness_force_close_spec_witness :
    0 ≤ 0 ∧
    ∃ k : Nat,
      0 + connectionTimeout < 0 + 5000 * (k + 1) ∧
      0 + 5000 * (k + 1) ≤ 0 + connectionTimeout + 5000 ∧
      ∀ s : CState, s.connectionCheckInterval = true → s.wsReady = WSState.opened →
        s.lastMessageTime = 0 →
        (connectionCheck (0 + 5000 * (k + 1)) s).wsReady = WSState.closing :=
  ⟨Nat.le_refl 0, staleness_force_close_spec 0 0 (Nat.le_refl 0)⟩

/-- Claim C4 counterexample: on a payload whose `JSON.parse` fails (modelled
by `raw = none`), the `message` handler does update `lastMessageTime` first,
but the parse error is NOT swallowed — there is no `try`/`catch` around
`JSON.parse(event.data)` on line 969, so the exception (the `some ()` second
component) propagates out of the message handler, contradicting the claim
that a payload failing to decode is silently discarded with no error
propagating. -/
theorem message_error_counterexample :
    (wsOnMessage none 7 cInit).2 = some () ∧
    (wsOnMessage none 7 cInit).1.lastMessageTime = 7 :=
  ⟨rfl, rfl⟩

/-- Claim C4 as amended: for every message, `lastMessageTime` is updated
unconditionally (including for ping/keepalive traffic) before decoding, and
that update is the handler's only effect on the connection state; a payload
that fails to decode makes an uncaught exception propagate out of the
message handler (it is not silently discarded), but the connection state is
otherwise untouched and the event loop goes on dispatching subsequent
messages exactly as if the handler had returned normally. -/
theorem message_handling_amended (raw : Option Payload) (now : Nat) (s : CState) :
    (wsOnMessage raw now s).1 = { s with lastMessageTime := now } ∧
    ((wsOnMessage raw now s).2 = none ↔ raw.isSome = true) ∧
    ∀ evs : List CEvent,
      runClient (CEvent.evMessage raw now :: evs) s
        = runClient evs { s with lastMessageTime := now } := by
  refine ⟨rfl, ?_, fun evs => rfl⟩
  cases raw <;> simp [wsOnMessage]

/-- Witness for the amended claim C4, at a concrete well-formed payload and
clock reading. -/
theorem message_handling_amended_witness :
    (wsOnMessage (some pdEx) 3 cInit).1 = { cInit with lastMessageTime := 3 } ∧
    ((wsOnMessage (some pdEx) 3 cInit).2 = none ↔ (some pdEx).isSome = true) ∧
    ∀ evs : List CEvent,
      runClient (CEvent.evMessage (some pdEx) 3 :: evs) cInit
        = runClient evs { cInit with lastMessageTime := 3 } :=
  message_handling_amended (some pdEx) 3 cInit

/-- Claim C5 counterexample: a payload carrying truthy text, `did` and
`rkey`, decoded with the wall draw 0 (a tunnel-wall placement, not the
special `wall = -1` one) and no discard, produces a message object WITHOUT a
permalink — so the permalink is not constructed "exactly when both did and
rkey are present": line 368 additionally requires `wall === -1`. -/
theorem decode_permalink_counterexample :
    jsTruthy pdEx.did = true ∧
    jsTruthy (pdEx.commit.bind PostCommit.rkey) = true ∧
    jsTruthy (payloadText pdEx) = true ∧
    createMessage true 0 0 0 "hi" (some pdEx)
      = some { text := "hi", special := false, blueSkyUrl := none } := by
  refine ⟨rfl, rfl, rfl, ?_⟩
  decide

/-- Claim C5 as amended: for a parsed payload with truthy
`commit.record.text`, when the renderer is ready and the draw is not
discarded by `discardFraction` sampling, a message object with that text is
produced, and its permalink `https://bsky.app/profile/<did>/post/<rkey>` is
present exactly when the wall draw gave the special (`wall = -1`, i.e.
`wallRaw > 3`) placement AND both `did` and `commit.rkey` are truthy; a
payload without truthy text yields no event at all. -/
theorem decode_event_amended :
    (∀ (dF rand : Rat) (wallRaw : Nat) (text : String) (p : Payload),
      jsTruthy (payloadText p) = true →
      ¬((if 3 < wallRaw then (-1 : Int) else (wallRaw : Int)) ≠ -1 ∧
          0 < dF ∧ rand < dF) →
      ∃ m : MessageObject,
        createMessage true dF rand wallRaw text (some p) = some m ∧
        m.text = text ∧
        (m.special = true ↔ 3 < wallRaw) ∧
        (m.blueSkyUrl.isSome = true ↔
          (3 < wallRaw ∧ jsTruthy p.did = true ∧
            jsTruthy (p.commit.bind PostCommit.rkey) = true))) ∧
    (∀ (refsReady : Bool) (dF rand : Rat) (wallRaw : Nat) (p : Payload),
      jsTruthy (payloadText p) = false →
      decodeParsed refsReady dF rand wallRaw p = none) := by
  constructor
  · intro dF rand wallRaw text p ht hnd
    simp only [createMessage, Bool.true_eq_false, if_false, if_neg hnd, Option.some.injEq]
    refine ⟨_, rfl, rfl, ?_, ?_⟩
    · by_cases hw : 3 < wallRaw <;> simp [hw]
    · by_cases hw : 3 < wallRaw
      · have hwt : jsTruthy (payloadText p) = true ∧
            (if 3 < wallRaw then (-1 : Int) else (wallRaw : Int)) = -1 :=
          ⟨ht, by simp [hw]⟩
        simp only [computeUrl, if_pos hwt]
        cases hdid : p.did with
        | none =>
            cases hrk : p.commit.bind PostCommit.rkey with
            | none => simp [jsTruthy]
            | some rkey => simp [jsTruthy]
        | some did =>
            cases hrk : p.commit.bind PostCommit.rkey with
            | none => simp [jsTruthy, hw]
            | some rkey =>
                dsimp only
                rcases Classical.em (¬did = "" ∧ ¬rkey = "") with he | he
                · rw [if_pos he]
                  simp [jsTruthy, hw, he.1, he.2]
                · rw [if_neg he]
                  simp [jsTruthy, hw]
                  tauto
      · have hwall : ¬(jsTruthy (payloadText p) = true ∧
            (if 3 < wallRaw then (-1 : Int) else (wallRaw : Int)) = -1) := by
          simp only [hw, if_false]
          intro hcon
          omega
        simp only [computeUrl, if_neg hwall]
        simp [hw]
  · intro refsReady dF rand wallRaw p h
    simp [decodeParsed, h]

/-- Witness for the amended claim C5: with a special-placement draw
(`wallRaw = 4`) and no discard, the payload with text, did and rkey yields a
message object, and its permalink-presence equivalence holds. -/
theorem decode_event_amended_witness :
    jsTruthy (payloadText pdEx) = true ∧
    ¬((if 3 < (4 : Nat) then (-1 : Int) else ((4 : Nat) : Int)) ≠ -1 ∧
        0 < (0 : Rat) ∧ (0 : Rat) < 0) ∧
    ∃ m : MessageObject,
      createMessage true 0 0 4 "hi" (some pdEx) = some m ∧
      m.text = "hi" ∧
      (m.special = true ↔ 3 < (4 : Nat)) ∧
      (m.blueSkyUrl.isSome = true ↔
        (3 < (4 : Nat) ∧ jsTruthy pdEx.did = true ∧
          jsTruthy (pdEx.commit.bind PostCommit.rkey) = true)) := by
  refine ⟨by decide, by decide, ?_⟩
  exact decode_event_amended.1 0 0 4 "hi" pdEx (by decide) (by decide)

/-- Claim C2: every upstream `close` event schedules exactly one reconnect
timer with delay exactly 5000 ms — no attempt cap, no escalating backoff, and
never more than one timer per close (over any event sequence the timer log
grows by exactly one `5000` entry per close) — and the upstream `error`
handler performs no state change at all (it only logs). -/
theorem upstream_reconnect_spec :
    (∀ (evs : List ServerEvent) (st : ServerState),
      (runServer evs st).jsTimers
        = st.jsTimers ++ List.replicate (evs.countP isJsClose) 5000) ∧
    (∀ st : ServerState, serverStep ServerEvent.jsError st = st) := by
  constructor
  · intro evs
    induction evs with
    | nil => intro st; simp [runServer]
    | cons e es ih =>
      intro st
      cases e <;>
        simp [runServer, serverStep, broadcast, isJsClose, List.countP_cons, ih,
          List.replicate_succ]
  · intro st
    rfl

/-- Claim C9: the `/health` response always has `status = "ok"`, reports
`clients` equal to the current size of the `connectedClients` set, and has
`jetstream = true` exactly when the upstream connection's transport state is
`OPEN`; the handler is a pure function of in-memory state (it is embedded as
one, performing no I/O). -/
theorem health_endpoint_spec (st : ServerState) :
    (health st).status = "ok" ∧
    (health st).clients = st.connectedClients.card ∧
    ((health st).jetstream = true ↔ st.jetstream = some WSState.opened) := by
  refine ⟨rfl, rfl, ?_⟩
  simp [health]

end Skyfox
